import Mathlib

/-!
Shallow embedding of the Diligent_PersonalAssistant backend
(`src/backend/vector_db.py`, `src/backend/rag.py`, `src/backend/llm.py`,
`src/backend/main.py`) and proofs of the specification claims about it.

The Pinecone index service and the Ollama HTTP server are external systems:
their behaviour at the API boundary is modelled from the spec (each such
definition carries a doc comment starting `Modelled from the spec:`).
Everything else is translated directly from the Python source.
-/

namespace Backend

/-- The fixed embedding dimension, `EMBEDDING_DIMENSION = 384` in
`src/backend/embeddings.py`. -/
def EMBEDDING_DIMENSION : Nat := 384

/-- A record stored in the index: (id, vector, payload{text, source}). -/
structure IndexRecord where
  id : String
  vector : List ℚ
  text : String
  source : String
deriving DecidableEq

/-- The observable state of the index: the stored records, in insertion order. -/
abbrev IndexState := List IndexRecord

/-- Errors raised by the index backend. -/
inductive IndexErr where
  | dimensionMismatch (id : String) (got expected : Nat)
deriving DecidableEq

/-- The (id, embedding, metadata) tuple built by
`PineconeVectorDB.upsert_documents` before calling `index.upsert`
(src/backend/vector_db.py lines 50-57). -/
structure UpsertVec where
  id : String
  values : List ℚ
  text : String
  source : String
deriving DecidableEq

/-- Modelled from the spec: the backend index stores records keyed by `id`;
`upsert` "inserts or replaces each record by `id`" (§3, §4.2).  The Pinecone
service itself is external and not present in `src/`. -/
def upsertRecord (state : IndexState) (r : IndexRecord) : IndexState :=
  if state.any (fun o => o.id == r.id) then
    state.map (fun o => if o.id == r.id then r else o)
  else
    state ++ [r]

/-- Modelled from the spec: the backend validates every upserted vector's
length against the index's fixed dimension `D = 384` and rejects a mismatch
with a dimension error; records are written whole, one at a time, so the
failing record writes nothing while records before it in the request stay
written (§4.2, §7).  The Pinecone service itself is external and not present
in `src/`. -/
def backendUpsert (state : IndexState) : List UpsertVec → Option IndexErr × IndexState
  | [] => (none, state)
  | v :: rest =>
    if v.values.length = EMBEDDING_DIMENSION then
      backendUpsert (upsertRecord state ⟨v.id, v.values, v.text, v.source⟩) rest
    else
      (some (.dimensionMismatch v.id v.values.length EMBEDDING_DIMENSION), state)

/-- Modelled from the spec: the similarity score of a stored vector against
the query vector; higher = more similar (§3).  The reference metric family is
cosine/dot similarity (§2); dot product is used here. -/
def dotScore (q v : List ℚ) : ℚ := (List.zipWith (· * ·) q v).sum

/-- A match returned by the backend query: (id, text, score, source). -/
structure QueryMatch where
  id : String
  text : String
  score : ℚ
  source : String
deriving DecidableEq

/-- The retrieval order: `a` comes no later than `b` when `a`'s score is no
smaller. -/
def matchRel (a b : QueryMatch) : Prop := b.score ≤ a.score

instance : DecidableRel matchRel :=
  fun a b => (inferInstance : Decidable (b.score ≤ a.score))

instance : IsTotal QueryMatch matchRel := ⟨fun a b => le_total b.score a.score⟩

instance : IsTrans QueryMatch matchRel := ⟨fun _ _ _ hab hbc => le_trans hbc hab⟩

/-- Modelled from the spec: `index.query(vector, top_k)` returns the `top_k`
highest-similarity records in non-increasing score order; a deterministic
stable sort is acceptable for ties (§3, §4.2).  Querying an empty index
returns an empty sequence (§4.2).  The Pinecone service itself is external
and not present in `src/`. -/
def backendQuery (state : IndexState) (q : List ℚ) (k : Nat) : List QueryMatch :=
  (List.insertionSort matchRel
    (state.map fun r => QueryMatch.mk r.id r.text (dotScore q r.vector) r.source)).take k

/-- The formatted result dict produced by `PineconeVectorDB.query_top_k`
(src/backend/vector_db.py lines 85-94): keys id, text, score, source. -/
structure RetrievedDoc where
  id : String
  text : String
  score : ℚ
  source : String
deriving DecidableEq

/-- `PineconeVectorDB.query_top_k` (src/backend/vector_db.py lines 68-94):
queries the backend and re-formats each match into a result dict. -/
def query_top_k (state : IndexState) (query_embedding : List ℚ) (top_k : Nat) :
    List RetrievedDoc :=
  (backendQuery state query_embedding top_k).map fun m =>
    ⟨m.id, m.text, m.score, m.source⟩

/-- An input document for `upsert_documents`: a dict with keys id, text,
embedding and an optional source (`doc.get("source", "unknown")`). -/
structure UpsertDoc where
  id : String
  text : String
  embedding : List ℚ
  source : Option String
deriving DecidableEq

/-- `batch_size = 100` (src/backend/vector_db.py line 61). -/
def batch_size : Nat := 100

/-- Splits a list into consecutive chunks of `b` elements (the last chunk may
be shorter), mirroring `for i in range(0, len(v), batch_size): v[i : i + batch_size]`
(src/backend/vector_db.py lines 62-64). -/
def chunksOf (b : Nat) : List α → List (List α)
  | [] => []
  | x :: xs => (x :: xs.take (b - 1)) :: chunksOf b (xs.drop (b - 1))
termination_by l => l.length
decreasing_by
  simp only [List.length_drop, List.length_cons]
  omega

/-- Runs the chunked upsert loop: each batch is sent to the backend in turn;
a raised error aborts the loop, leaving earlier batches committed. -/
def runBatches : List (List UpsertVec) → IndexState → Option IndexErr × IndexState
  | [], state => (none, state)
  | b :: rest, state =>
    match backendUpsert state b with
    | (some e, s') => (some e, s')
    | (none, s') => runBatches rest s'

set_option linter.unusedVariables false in
/-- `PineconeVectorDB.upsert_documents` (src/backend/vector_db.py lines
35-66): builds the (id, embedding, metadata) tuples, then upserts them in
batches of 100.  NOTE: the source accepts an `embedding_dimension` parameter
but never uses it — the wrapper performs no validation of its own. -/
def upsert_documents (documents : List UpsertDoc) (state : IndexState)
    (embedding_dimension : Nat := 384) : Option IndexErr × IndexState :=
  let vectors_to_upsert := documents.map fun doc =>
    UpsertVec.mk doc.id doc.embedding doc.text (doc.source.getD "unknown")
  runBatches (chunksOf batch_size vectors_to_upsert) state

/-- Python-level characters of a string.  Python strings are sequences of
code points, so `s[:n]` is a take on the character list. -/
def pyTake (s : String) (n : Nat) : String := String.mk (s.data.take n)

/-- Python `str.strip()`: remove leading and trailing whitespace, modelled on
the character list. -/
def pyStrip (s : String) : String :=
  String.mk (((s.data.dropWhile Char.isWhitespace).reverse.dropWhile
    Char.isWhitespace).reverse)

/-- Python exceptions as they escape `OllamaLLM.generate`: a plain
`Exception(msg)` raised by the method itself, or a
`requests.exceptions.ReadTimeout` propagating uncaught (a distinct exception
type: the method's `except` clause catches only
`requests.exceptions.ConnectionError`). -/
inductive PyError where
  | exception (msg : String)
  | readTimeout
deriving DecidableEq

/-- The outcome of the single `requests.post` call inside
`OllamaLLM.generate`: the connection fails, the configured timeout expires
while waiting for the response, or an HTTP response arrives.
`responseField` is the value of the parsed JSON body's "response" key
(`result.get("response", "")`). -/
inductive HTTPOutcome where
  | connectionError
  | timedOut
  | response (status : Nat) (text : String) (responseField : String)
deriving DecidableEq

/-- The request handed to `requests.post` by `OllamaLLM.generate`
(src/backend/llm.py lines 47-57): URL, JSON payload and the `timeout=60`
keyword argument. -/
structure OllamaRequest where
  url : String
  model : String
  prompt : String
  temperature : ℚ
  num_predict : Nat
  stream : Bool
  timeout : Nat
deriving DecidableEq

/-- `OllamaLLM.__init__` state (src/backend/llm.py lines 14-27). -/
structure OllamaLLM where
  base_url : String
  model : String
deriving DecidableEq

/-- The request built by `OllamaLLM.generate` for its one `requests.post`
call (src/backend/llm.py lines 47-57). -/
def OllamaLLM.request (llm : OllamaLLM) (prompt : String) (temperature : ℚ)
    (max_tokens : Nat) : OllamaRequest :=
  { url := llm.base_url ++ "/api/generate"
    model := llm.model
    prompt := prompt
    temperature := temperature
    num_predict := max_tokens
    stream := false
    timeout := 60 }

/-- `OllamaLLM.generate` (src/backend/llm.py lines 29-71).  The behaviour of
the external HTTP stack is abstracted as `http`, applied exactly once to the
request the method builds (the method performs no retry).  A
`ConnectionError` is caught and re-raised as `Exception` with a message
naming the base URL; a non-200 status raises `Exception` with the status and
body; a read timeout is not caught and escapes as the distinct
`ReadTimeout` exception; on success the JSON "response" field is returned
stripped of surrounding whitespace. -/
def OllamaLLM.generate (llm : OllamaLLM) (http : OllamaRequest → HTTPOutcome)
    (prompt : String) (temperature : ℚ) (max_tokens : Nat) :
    Except PyError String :=
  match http (llm.request prompt temperature max_tokens) with
  | .connectionError =>
    .error (.exception ("Cannot connect to Ollama at " ++ llm.base_url ++
      ". Make sure Ollama is running locally."))
  | .timedOut => .error .readTimeout
  | .response status text responseField =>
    if status ≠ 200 then
      .error (.exception ("Ollama error: " ++ toString status ++ " - " ++ text))
    else
      .ok (pyStrip responseField)

/-- `RAGEngine._build_rag_prompt` (src/backend/rag.py lines 33-71): the
numbered context block joined by blank lines, spliced with the user question
into one fixed template. -/
def build_rag_prompt (query : String) (retrieved_docs : List RetrievedDoc) : String :=
  let context_text := String.intercalate "\n\n" (retrieved_docs.enum.map fun p =>
    "[Document " ++ toString (p.1 + 1) ++ "] (" ++ p.2.source ++ ")\n" ++ p.2.text)
  "You are a helpful personal assistant named Jarvis.\nUse the provided context to answer the user's question accurately.\nIf the context doesn't contain relevant information, say \"I don't have enough information to answer that.\"\nDo not make up information.\n\n---\nCONTEXT:\n"
    ++ context_text
    ++ "\n\n---\nUSER QUESTION:\n" ++ query ++ "\n\n---\nANSWER:\n"

/-- One entry of the `sources` list built by `RAGEngine.answer`
(src/backend/rag.py line 106): `{"text": doc["text"][:100] + "...", "id": doc["id"]}`. -/
structure SourceEntry where
  text : String
  id : String
deriving DecidableEq

/-- The structured response of `RAGEngine.answer`
(src/backend/rag.py lines 103-110). -/
structure RAGResult where
  answer : String
  sources : List SourceEntry
  context_count : Nat
deriving DecidableEq

/-- `RAGEngine.answer` (src/backend/rag.py lines 73-110): embed the query,
retrieve the top-k documents (a read-only index query), build the prompt,
generate, and return the structured result.  `embed_text` stands for the
external sentence-transformers embedder (src/backend/embeddings.py); `http`
stands for the HTTP stack used by the generator.  The index state is
threaded explicitly; a generation failure propagates unchanged. -/
def RAGEngine.answer (embed_text : String → List ℚ) (llm : OllamaLLM)
    (http : OllamaRequest → HTTPOutcome) (top_k : Nat)
    (state : IndexState) (query : String) :
    Except PyError RAGResult × IndexState :=
  let query_embedding := embed_text query
  let retrieved_docs := query_top_k state query_embedding top_k
  let rag_prompt := build_rag_prompt query retrieved_docs
  match llm.generate http rag_prompt (7/10 : ℚ) 512 with
  | .error e => (.error e, state)
  | .ok answer_text =>
    (.ok { answer := answer_text
           sources := retrieved_docs.map fun doc =>
             ⟨pyTake doc.text 100 ++ "...", doc.id⟩
           context_count := retrieved_docs.length }, state)

/-- A document in an `/index` request body: a dict with keys id, text, and
an optional source (src/backend/main.py lines 39-41, 160-171). -/
structure InputDoc where
  id : String
  text : String
  source : Option String
deriving DecidableEq

/-- A FastAPI `HTTPException`: status code and detail string. -/
structure HTTPError where
  status_code : Nat
  detail : String
deriving DecidableEq

/-- The success body returned by the `/index` endpoint
(src/backend/main.py lines 180-184). -/
structure IndexResponse where
  status : String
  documents_indexed : Nat
  message : String
deriving DecidableEq

/-- Modelled from the spec: the message text of a backend dimension error
(the Pinecone service's error rendering is external to `src/`; the spec only
requires a "dimension error", §4.2). -/
def IndexErr.message : IndexErr → String
  | .dimensionMismatch id got expected =>
    "Vector with id " ++ id ++ " has dimension " ++ toString got ++
      " which does not match the dimension of the index " ++ toString expected

/-- `index_documents`, the `/index` endpoint handler (src/backend/main.py
lines 143-187).  An empty documents list raises
`ValueError("Documents list cannot be empty")` INSIDE the `try` block, so it
is caught by the blanket `except Exception` handler and surfaced as HTTP
status 500 (unlike `/chat`, which maps `ValueError` to 400).  Otherwise the
texts are batch-embedded, zipped with the documents, and upserted; any
exception from the upsert is also surfaced as HTTP 500. -/
def index_documents (embed_batch : List String → List (List ℚ))
    (documents : List InputDoc) (state : IndexState) :
    Except HTTPError IndexResponse × IndexState :=
  if documents.isEmpty then
    (.error ⟨500, "Documents list cannot be empty"⟩, state)
  else
    let texts := documents.map (fun d => d.text)
    let embeddings := embed_batch texts
    let docs_with_embeddings := (documents.zip embeddings).map fun p =>
      UpsertDoc.mk p.1.id p.1.text p.2 (some (p.1.source.getD "unknown"))
    match upsert_documents docs_with_embeddings state with
    | (some e, s') => (.error ⟨500, e.message⟩, s')
    | (none, s') =>
      (.ok { status := "success"
             documents_indexed := documents.length
             message := "Successfully indexed " ++ toString documents.length ++
               " documents" }, s')

/-! ### Lemmas about the chunked upsert -/

theorem flatten_chunksOf (b : Nat) : ∀ xs : List α, (chunksOf b xs).flatten = xs
  | [] => by simp [chunksOf]
  | x :: xs => by
    rw [chunksOf, List.flatten_cons, flatten_chunksOf b (xs.drop (b - 1))]
    simp
termination_by xs => xs.length
decreasing_by
  simp only [List.length_drop, List.length_cons]
  omega

theorem backendUpsert_append (a b : List UpsertVec) (state : IndexState) :
    backendUpsert state (a ++ b) =
      match backendUpsert state a with
      | (some e, s') => (some e, s')
      | (none, s') => backendUpsert s' b := by
  induction a generalizing state with
  | nil => simp [backendUpsert]
  | cons v rest ih =>
    simp only [List.cons_append, backendUpsert]
    by_cases h : v.values.length = EMBEDDING_DIMENSION
    · simp only [if_pos h]
      exact ih _
    · simp only [if_neg h]

theorem runBatches_eq (batches : List (List UpsertVec)) (state : IndexState) :
    runBatches batches state = backendUpsert state batches.flatten := by
  induction batches generalizing state with
  | nil => simp [runBatches, backendUpsert]
  | cons c rest ih =>
    rw [runBatches, List.flatten_cons, backendUpsert_append]
    rcases h : backendUpsert state c with ⟨err, s'⟩
    cases err <;> simp [ih]

theorem upsert_documents_eq_single (documents : List UpsertDoc) (state : IndexState) :
    upsert_documents documents state =
      backendUpsert state (documents.map fun doc =>
        UpsertVec.mk doc.id doc.embedding doc.text (doc.source.getD "unknown")) := by
  unfold upsert_documents
  rw [runBatches_eq, flatten_chunksOf]

theorem mem_upsertRecord {s : IndexState} {r o : IndexRecord}
    (h : o ∈ upsertRecord s r) : o ∈ s ∨ o = r := by
  unfold upsertRecord at h
  split at h
  · obtain ⟨x, hx, hxo⟩ := List.mem_map.1 h
    subst hxo
    split
    · right; rfl
    · left; exact hx
  · rcases List.mem_append.1 h with h1 | h2
    · left; exact h1
    · right; exact List.mem_singleton.1 h2

theorem backendUpsert_mem (vecs : List UpsertVec) (state : IndexState)
    {r : IndexRecord} (h : r ∈ (backendUpsert state vecs).2) :
    r ∈ state ∨ ∃ v ∈ vecs, v.values.length = EMBEDDING_DIMENSION ∧
      r = ⟨v.id, v.values, v.text, v.source⟩ := by
  induction vecs generalizing state with
  | nil => left; exact h
  | cons v rest ih =>
    rw [backendUpsert] at h
    by_cases hv : v.values.length = EMBEDDING_DIMENSION
    · rw [if_pos hv] at h
      rcases ih _ h with h1 | ⟨w, hw, hwl, hwr⟩
      · rcases mem_upsertRecord h1 with h2 | h2
        · left; exact h2
        · right; exact ⟨v, List.mem_cons_self v rest, hv, h2⟩
      · right; exact ⟨w, List.mem_cons_of_mem v hw, hwl, hwr⟩
    · rw [if_neg hv] at h
      left; exact h

theorem backendUpsert_error (vecs : List UpsertVec) (state : IndexState)
    (h : ∃ v ∈ vecs, v.values.length ≠ EMBEDDING_DIMENSION) :
    ∃ id n, (backendUpsert state vecs).1 =
      some (.dimensionMismatch id n EMBEDDING_DIMENSION) ∧ n ≠ EMBEDDING_DIMENSION := by
  induction vecs generalizing state with
  | nil => simp at h
  | cons v rest ih =>
    rw [backendUpsert]
    by_cases hv : v.values.length = EMBEDDING_DIMENSION
    · rw [if_pos hv]
      apply ih
      rcases h with ⟨w, hw, hwl⟩
      rcases List.mem_cons.1 hw with rfl | hw2
      · exact absurd hv hwl
      · exact ⟨w, hw2, hwl⟩
    · rw [if_neg hv]
      exact ⟨v.id, v.values.length, rfl, hv⟩

theorem upsertRecord_any (s : IndexState) (r : IndexRecord) :
    (upsertRecord s r).any (fun o => o.id == r.id) = true := by
  unfold upsertRecord
  split
  case isTrue h =>
    rcases List.any_eq_true.1 h with ⟨x, hx, hxid⟩
    exact List.any_eq_true.2 ⟨r, List.mem_map.2 ⟨x, hx, by simp [hxid]⟩, by simp⟩
  case isFalse h =>
    exact List.any_eq_true.2 ⟨r, List.mem_append_right _ (List.mem_singleton.2 rfl), by simp⟩

theorem upsertRecord_mem_id_eq {s : IndexState} {r o : IndexRecord}
    (ho : o ∈ upsertRecord s r) (hid : (o.id == r.id) = true) : o = r := by
  unfold upsertRecord at ho
  split at ho
  case isTrue h =>
    rcases List.mem_map.1 ho with ⟨x, hx, hxo⟩
    subst hxo
    by_cases hxid : (x.id == r.id) = true
    · simp only [if_pos hxid]
    · simp only [if_neg hxid] at hid ⊢
      exact absurd hid hxid
  case isFalse h =>
    rcases List.mem_append.1 ho with h1 | h2
    · exact absurd (List.any_eq_true.2 ⟨o, h1, hid⟩) h
    · exact List.mem_singleton.1 h2

theorem upsertRecord_idem (s : IndexState) (r : IndexRecord) :
    upsertRecord (upsertRecord s r) r = upsertRecord s r := by
  have hany := upsertRecord_any s r
  have hmem : ∀ o ∈ upsertRecord s r, (o.id == r.id) = true → o = r :=
    fun o ho hid => upsertRecord_mem_id_eq ho hid
  revert hany hmem
  generalize upsertRecord s r = t
  intro hany hmem
  unfold upsertRecord
  rw [if_pos hany]
  have hfun : ∀ o ∈ t, (fun o => if o.id == r.id then r else o) o = id o := by
    intro o ho
    show (if (o.id == r.id) = true then r else o) = id o
    rw [id_eq]
    by_cases hid : (o.id == r.id) = true
    · rw [if_pos hid]
      exact (hmem o ho hid).symm
    · rw [if_neg hid]
  rw [List.map_congr_left hfun, List.map_id]

theorem length_filter_id (s : IndexState) (i : String)
    (hnd : (s.map IndexRecord.id).Nodup)
    (hany : s.any (fun o => o.id == i) = true) :
    (s.filter (fun o => o.id == i)).length = 1 := by
  induction s with
  | nil => simp at hany
  | cons a s ih =>
    rw [List.map_cons, List.nodup_cons] at hnd
    simp only [List.filter_cons]
    split
    case isTrue ha =>
      have hs : s.filter (fun o => o.id == i) = [] := by
        refine List.filter_eq_nil_iff.2 fun x hx => ?_
        intro hxid
        exact hnd.1 (by
          have hax : a.id = x.id := by
            rw [beq_iff_eq] at ha hxid
            rw [ha, hxid]
          exact hax ▸ List.mem_map_of_mem _ hx)
      rw [hs]
      rfl
    case isFalse ha =>
      apply ih hnd.2
      rcases List.any_eq_true.1 hany with ⟨x, hx, hxid⟩
      rcases List.mem_cons.1 hx with rfl | hx2
      · exact absurd hxid ha
      · exact List.any_eq_true.2 ⟨x, hx2, hxid⟩

theorem length_filter_upsertRecord (s : IndexState) (r : IndexRecord)
    (hnd : (s.map IndexRecord.id).Nodup) :
    ((upsertRecord s r).filter (fun o => o.id == r.id)).length = 1 := by
  unfold upsertRecord
  split
  case isTrue h =>
    rw [List.filter_map, List.length_map]
    have hcong : s.filter ((fun o => o.id == r.id) ∘
        (fun o => if o.id == r.id then r else o)) =
        s.filter (fun o => o.id == r.id) := by
      refine List.filter_congr fun x _ => ?_
      by_cases hx : (x.id == r.id) = true
      · simp [Function.comp, hx]
      · simp [Function.comp, hx]
    rw [hcong]
    exact length_filter_id s r.id hnd h
  case isFalse h =>
    rw [List.filter_append]
    have hs : s.filter (fun o => o.id == r.id) = [] := by
      refine List.filter_eq_nil_iff.2 fun x hx hxid => ?_
      exact absurd (List.any_eq_true.2 ⟨x, hx, hxid⟩) h
    rw [hs]
    simp

/-! ### Claim theorems -/

/-- C1: for every batch passed to the Index upsert operation, if some
record's vector length differs from the fixed dimension D = 384 then the
operation fails with a dimension error; no part of a rejected record is
written (every record in the resulting state is either a pre-existing record
or the whole record of a batch document with the correct dimension), and all
stored vectors still have dimension D, so existing records are not
corrupted. -/
theorem upsert_dimension_error (docs : List UpsertDoc) (state : IndexState)
    (hstate : ∀ r ∈ state, r.vector.length = EMBEDDING_DIMENSION)
    (d : UpsertDoc) (hd : d ∈ docs)
    (hlen : d.embedding.length ≠ EMBEDDING_DIMENSION) :
    (∃ id n, (upsert_documents docs state).1 =
        some (.dimensionMismatch id n EMBEDDING_DIMENSION) ∧
        n ≠ EMBEDDING_DIMENSION) ∧
    (∀ r ∈ (upsert_documents docs state).2,
      r ∈ state ∨ ∃ doc ∈ docs, doc.embedding.length = EMBEDDING_DIMENSION ∧
        r = ⟨doc.id, doc.embedding, doc.text, doc.source.getD "unknown"⟩) ∧
    (∀ r ∈ (upsert_documents docs state).2,
      r.vector.length = EMBEDDING_DIMENSION) := by
  rw [upsert_documents_eq_single]
  refine ⟨?_, ?_, ?_⟩
  · exact backendUpsert_error _ _ ⟨_, List.mem_map_of_mem _ hd, hlen⟩
  · intro r hr
    rcases backendUpsert_mem _ _ hr with h1 | ⟨v, hv, hvl, hvr⟩
    · left; exact h1
    · right
      rcases List.mem_map.1 hv with ⟨doc, hdoc, rfl⟩
      exact ⟨doc, hdoc, hvl, hvr⟩
  · intro r hr
    rcases backendUpsert_mem _ _ hr with h1 | ⟨v, hv, hvl, hvr⟩
    · exact hstate r h1
    · rw [hvr]; exact hvl

/-- Witness for C1 at a concrete input: a single document with a 1-element
vector in an empty index. -/
theorem upsert_dimension_error_witness :
    (∃ id n, (upsert_documents [⟨"x", "t", [1], none⟩] []).1 =
        some (.dimensionMismatch id n EMBEDDING_DIMENSION) ∧
        n ≠ EMBEDDING_DIMENSION) ∧
    (∀ r ∈ (upsert_documents [⟨"x", "t", [1], none⟩] []).2,
      r ∈ ([] : IndexState) ∨
        ∃ doc ∈ [(⟨"x", "t", [1], none⟩ : UpsertDoc)],
          doc.embedding.length = EMBEDDING_DIMENSION ∧
          r = ⟨doc.id, doc.embedding, doc.text, doc.source.getD "unknown"⟩) ∧
    (∀ r ∈ (upsert_documents [⟨"x", "t", [1], none⟩] []).2,
      r.vector.length = EMBEDDING_DIMENSION) :=
  upsert_dimension_error [⟨"x", "t", [1], none⟩] [] (by simp)
    ⟨"x", "t", [1], none⟩ (List.mem_singleton.2 rfl) (by decide)

/-- C7: submitting the records to the backend in fixed-size chunks of 100
(as `upsert_documents` does) produces exactly the same result — error and
final index state — as submitting them all in one single backend call. -/
theorem upsert_chunking_equivalent (documents : List UpsertDoc) (state : IndexState) :
    upsert_documents documents state =
      backendUpsert state (documents.map fun doc =>
        UpsertVec.mk doc.id doc.embedding doc.text (doc.source.getD "unknown")) :=
  upsert_documents_eq_single documents state

/-- C8: upserting the same document twice leaves exactly one record with its
id in the index, and the second upsert replaces the first instead of
duplicating it — the index state after the second call equals the state
after the first; both calls succeed. -/
theorem upsert_twice_idempotent (doc : UpsertDoc) (state : IndexState)
    (hnd : (state.map IndexRecord.id).Nodup)
    (hdim : doc.embedding.length = EMBEDDING_DIMENSION) :
    (upsert_documents [doc] state).1 = none ∧
    (upsert_documents [doc] (upsert_documents [doc] state).2).1 = none ∧
    (upsert_documents [doc] (upsert_documents [doc] state).2).2 =
      (upsert_documents [doc] state).2 ∧
    (((upsert_documents [doc] state).2).filter
      (fun r => r.id == doc.id)).length = 1 ∧
    (((upsert_documents [doc] (upsert_documents [doc] state).2).2).filter
      (fun r => r.id == doc.id)).length = 1 := by
  have hsingle : ∀ st : IndexState, upsert_documents [doc] st =
      (none, upsertRecord st ⟨doc.id, doc.embedding, doc.text, doc.source.getD "unknown"⟩) := by
    intro st
    rw [upsert_documents_eq_single]
    simp only [List.map_cons, List.map_nil]
    rw [backendUpsert]
    dsimp only
    rw [if_pos hdim]
    rfl
  set rec : IndexRecord :=
    ⟨doc.id, doc.embedding, doc.text, doc.source.getD "unknown"⟩ with hrec
  rw [hsingle state]
  dsimp only
  rw [hsingle (upsertRecord state rec)]
  dsimp only
  refine ⟨rfl, rfl, upsertRecord_idem state rec, ?_, ?_⟩
  · exact length_filter_upsertRecord state rec hnd
  · rw [upsertRecord_idem state rec]
    exact length_filter_upsertRecord state rec hnd

/-- The concrete document used by the C8 witness. -/
def c8doc : UpsertDoc := ⟨"d1", "The sky is blue.", List.replicate 384 0, some "fact"⟩

/-- Witness for C8 at a concrete input: one document into an empty index. -/
theorem upsert_twice_idempotent_witness :
    (upsert_documents [c8doc] []).1 = none ∧
    (upsert_documents [c8doc] (upsert_documents [c8doc] []).2).1 = none ∧
    (upsert_documents [c8doc] (upsert_documents [c8doc] []).2).2 =
      (upsert_documents [c8doc] []).2 ∧
    (((upsert_documents [c8doc] []).2).filter
      (fun r => r.id == c8doc.id)).length = 1 ∧
    (((upsert_documents [c8doc] (upsert_documents [c8doc] []).2).2).filter
      (fun r => r.id == c8doc.id)).length = 1 :=
  upsert_twice_idempotent c8doc [] (by simp)
    (by show (List.replicate 384 (0 : ℚ)).length = EMBEDDING_DIMENSION
        rw [List.length_replicate]
        rfl)

set_option linter.unusedVariables false in
/-- C9: querying an empty index returns the empty sequence and never an error
(`query_top_k` is a total function); in general the result holds at most k
matches, and when the index holds at most k records the result is a
permutation of all the stored records' formatted matches. -/
theorem query_empty_and_bounded (v : List ℚ) (k : Nat) (hk : 1 ≤ k) :
    query_top_k [] v k = [] ∧
    (∀ state : IndexState, (query_top_k state v k).length ≤ k) ∧
    (∀ state : IndexState, state.length ≤ k →
      (query_top_k state v k).Perm (state.map fun r =>
        RetrievedDoc.mk r.id r.text (dotScore v r.vector) r.source)) := by
  refine ⟨by simp [query_top_k, backendQuery], ?_, ?_⟩
  · intro state
    unfold query_top_k backendQuery
    rw [List.length_map, List.length_take]
    exact Nat.min_le_left _ _
  · intro state hsk
    unfold query_top_k backendQuery
    have hlen : (List.insertionSort matchRel (state.map fun r =>
        QueryMatch.mk r.id r.text (dotScore v r.vector) r.source)).length
        = state.length := by
      rw [(List.perm_insertionSort matchRel _).length_eq, List.length_map]
    rw [List.take_of_length_le (by rw [hlen]; exact hsk)]
    have hperm := (List.perm_insertionSort matchRel (state.map fun r =>
        QueryMatch.mk r.id r.text (dotScore v r.vector) r.source)).map
      (fun m : QueryMatch => RetrievedDoc.mk m.id m.text m.score m.source)
    rw [List.map_map] at hperm
    exact hperm

/-- Witness for C9 at a concrete input: query vector [1] with k = 1. -/
theorem query_empty_and_bounded_witness :
    query_top_k [] [(1 : ℚ)] 1 = [] ∧
    (∀ state : IndexState, (query_top_k state [(1 : ℚ)] 1).length ≤ 1) ∧
    (∀ state : IndexState, state.length ≤ 1 →
      (query_top_k state [(1 : ℚ)] 1).Perm (state.map fun r =>
        RetrievedDoc.mk r.id r.text (dotScore [(1 : ℚ)] r.vector) r.source)) :=
  query_empty_and_bounded [(1 : ℚ)] 1 (by decide)

/-- C10: `RAGEngine.answer` leaves the index state unchanged, for every
embedder, generator outcome, top_k, index state and query — its only index
interaction is the read-only `query_top_k`. -/
theorem answer_preserves_index (embed_text : String → List ℚ) (llm : OllamaLLM)
    (http : OllamaRequest → HTTPOutcome) (top_k : Nat) (state : IndexState)
    (query : String) :
    (RAGEngine.answer embed_text llm http top_k state query).2 = state := by
  simp only [RAGEngine.answer]
  split <;> rfl

/-- A deterministic stand-in embedder for concrete evaluations: every text
maps to the 384-dimensional zero vector. -/
def constEmbed : List String → List (List ℚ) :=
  fun ts => ts.map fun _ => List.replicate 384 (0 : ℚ)

set_option maxRecDepth 4000 in
/-- C3 (code bug in the caller-fault part): at the failing input — an empty
documents list — the `/index` handler rejects the request before any
embedding or upsert happens (the index state is unchanged and the detail is
the validation message), but the rejection is surfaced with HTTP status 500,
a server-fault status rather than a caller-fault 4xx, because the
`ValueError` is raised inside the `try` block and caught by the blanket
`except Exception` handler (unlike `/chat`, which maps `ValueError` to 400).
For a non-empty batch the handler returns `documents_indexed = N`, shown
here at N = 1. -/
theorem index_empty_batch_http_500 :
    (index_documents constEmbed [] [] =
      (.error ⟨500, "Documents list cannot be empty"⟩, [])) ∧
    ¬ (400 ≤ (500 : Nat) ∧ (500 : Nat) ≤ 499) ∧
    ((index_documents constEmbed [⟨"d1", "The sky is blue.", none⟩] []).1 =
      .ok ⟨"success", 1, "Successfully indexed 1 documents"⟩) := by
  refine ⟨rfl, by decide, ?_⟩
  simp only [index_documents]
  rw [upsert_documents_eq_single]
  rfl

/-- The exact refusal sentence required by spec §4.4 rule (b). -/
def refusalSentence : String := "I don't have enough information to answer that."

/-- Spec-side rendering of one retrieved document as a numbered,
source-tagged entry (spec §4.4 step 3). -/
def documentEntry (i : Nat) (d : RetrievedDoc) : String :=
  "[Document " ++ toString (i + 1) ++ "] (" ++ d.source ++ ")\n" ++ d.text

/-- Spec-side decomposition: the fixed system-instruction text before the
refusal sentence — the persona and rule (a). -/
def sysHeadA : String := "You are a helpful personal assistant named Jarvis.\nUse the provided context to answer the user's question accurately.\nIf the context doesn't contain relevant information, say \""

/-- Spec-side decomposition: the fixed text between the refusal sentence and
the context block — the never-fabricate rule and the context header. -/
def sysHeadB : String := "\"\nDo not make up information.\n\n---\nCONTEXT:\n"

/-- Spec-side decomposition: the fixed text between the context block and
the literal user question. -/
def questionHeader : String := "\n\n---\nUSER QUESTION:\n"

/-- Spec-side decomposition: the trailing answer cue. -/
def answerCue : String := "\n\n---\nANSWER:\n"

set_option maxRecDepth 8000 in
/-- C4: the assembled prompt is exactly the fixed system instruction (the
persona and the two rules, containing the exact refusal sentence), followed
by the retrieved documents rendered as a numbered list each tagged with its
source in retrieval order, followed by the literal user question, followed
by the "ANSWER:" cue. -/
theorem build_rag_prompt_structure (query : String) (docs : List RetrievedDoc) :
    build_rag_prompt query docs =
      sysHeadA ++ refusalSentence ++ sysHeadB ++
        String.intercalate "\n\n" (docs.enum.map fun p => documentEntry p.1 p.2) ++
        questionHeader ++ query ++ answerCue ∧
    (∀ i d, documentEntry i d =
      "[Document " ++ toString (i + 1) ++ "] (" ++ d.source ++ ")\n" ++ d.text) ∧
    refusalSentence = "I don't have enough information to answer that." ∧
    answerCue = "\n\n---\nANSWER:\n" := by
  refine ⟨?_, fun i d => rfl, rfl, rfl⟩
  simp only [build_rag_prompt]
  rfl

theorem query_top_k_scores_sorted (state : IndexState) (q : List ℚ) (k : Nat) :
    ((query_top_k state q k).map RetrievedDoc.score).Sorted (· ≥ ·) := by
  unfold query_top_k backendQuery
  rw [List.map_map]
  have hs := List.sorted_insertionSort matchRel
    (state.map fun r => QueryMatch.mk r.id r.text (dotScore q r.vector) r.source)
  have ht : List.Pairwise matchRel ((List.insertionSort matchRel
      (state.map fun r =>
        QueryMatch.mk r.id r.text (dotScore q r.vector) r.source)).take k) :=
    List.Pairwise.sublist (List.take_sublist k _) hs
  exact List.pairwise_map.2 (ht.imp fun hab => hab)

theorem answer_ok_fields {e : String → List ℚ} {llm : OllamaLLM}
    {http : OllamaRequest → HTTPOutcome} {k : Nat} {state : IndexState}
    {query : String} {r : RAGResult} {s' : IndexState}
    (h : RAGEngine.answer e llm http k state query = (.ok r, s')) :
    r.sources = (query_top_k state (e query) k).map
      (fun doc => ⟨pyTake doc.text 100 ++ "...", doc.id⟩) ∧
    r.context_count = (query_top_k state (e query) k).length := by
  simp only [RAGEngine.answer] at h
  split at h
  · exact absurd h (by simp)
  · rw [Prod.mk.injEq] at h
    obtain ⟨h1, h2⟩ := h
    injection h1 with h1
    subst h1
    exact ⟨rfl, rfl⟩

set_option linter.unusedVariables false in
/-- C2: for every non-empty query and every index state, a successful
`answer` returns `context_count = len(sources)`; `sources` is the image, in
order, of the retrieved list, and the retrieval order is non-increasing in
similarity score. -/
theorem answer_count_and_order (e : String → List ℚ) (llm : OllamaLLM)
    (http : OllamaRequest → HTTPOutcome) (k : Nat) (state : IndexState)
    (query : String) (hq : query ≠ "") (r : RAGResult) (s' : IndexState)
    (h : RAGEngine.answer e llm http k state query = (.ok r, s')) :
    r.context_count = r.sources.length ∧
    r.sources = (query_top_k state (e query) k).map
      (fun doc => ⟨pyTake doc.text 100 ++ "...", doc.id⟩) ∧
    ((query_top_k state (e query) k).map RetrievedDoc.score).Sorted (· ≥ ·) := by
  obtain ⟨hs, hc⟩ := answer_ok_fields h
  refine ⟨?_, hs, query_top_k_scores_sorted state (e query) k⟩
  rw [hc, hs, List.length_map]

/-- C5: each entry of a successful answer's `sources` is the match's id with
the first 100 characters of its text and an unconditional "..." suffix; for
a text of at most 100 characters the entry is therefore the full text
followed by "...". -/
theorem answer_sources_truncation (e : String → List ℚ) (llm : OllamaLLM)
    (http : OllamaRequest → HTTPOutcome) (k : Nat) (state : IndexState)
    (query : String) (r : RAGResult) (s' : IndexState)
    (h : RAGEngine.answer e llm http k state query = (.ok r, s')) :
    r.sources = (query_top_k state (e query) k).map
      (fun doc => ⟨pyTake doc.text 100 ++ "...", doc.id⟩) ∧
    (∀ s : String, s.data.length ≤ 100 → pyTake s 100 ++ "..." = s ++ "...") := by
  refine ⟨(answer_ok_fields h).1, fun s hs => ?_⟩
  have hts : pyTake s 100 = s := by
    unfold pyTake
    cases s with
    | mk d =>
      dsimp only at hs ⊢
      rw [List.take_of_length_le hs]
  rw [hts]

/-- Concrete index state for the C2 and C5 witnesses: record "a" holds a
text of exactly 50 characters. -/
def wState : IndexState :=
  [⟨"a", [2], "01234567890123456789012345678901234567890123456789", "s"⟩,
   ⟨"b", [3], "tb", "s"⟩]

/-- Concrete embedder for the C2 and C5 witnesses. -/
def wEmbed : String → List ℚ := fun _ => []

/-- Concrete HTTP stack for the C2 and C5 witnesses: always a 200 response
whose JSON "response" field is "hello". -/
def wHTTP : OllamaRequest → HTTPOutcome := fun _ => .response 200 "" "hello"

/-- Concrete generator configuration for the C2 and C5 witnesses. -/
def wLLM : OllamaLLM := ⟨"http://localhost:11434", "llama3"⟩

/-- The concrete result of `RAGEngine.answer` on the witness inputs: the
50-character text appears in `sources` in full, with the "..." suffix. -/
def wR : RAGResult :=
  ⟨"hello",
   [⟨"01234567890123456789012345678901234567890123456789...", "a"⟩], 1⟩

/-- Witness for C2 at the concrete inputs. -/
theorem answer_count_and_order_witness :
    wR.context_count = wR.sources.length ∧
    wR.sources = (query_top_k wState (wEmbed "q") 1).map
      (fun doc => ⟨pyTake doc.text 100 ++ "...", doc.id⟩) ∧
    ((query_top_k wState (wEmbed "q") 1).map RetrievedDoc.score).Sorted (· ≥ ·) :=
  answer_count_and_order wEmbed wLLM wHTTP 1 wState "q" (by decide) wR wState
    (by rfl)

/-- Witness for C5 at the concrete inputs. -/
theorem answer_sources_truncation_witness :
    wR.sources = (query_top_k wState (wEmbed "q") 1).map
      (fun doc => ⟨pyTake doc.text 100 ++ "...", doc.id⟩) ∧
    (∀ s : String, s.data.length ≤ 100 → pyTake s 100 ++ "..." = s ++ "...") :=
  answer_sources_truncation wEmbed wLLM wHTTP 1 wState "q" wR wState (by rfl)

/-- A successful HTTP outcome: a 200 response. -/
def isSuccess (o : HTTPOutcome) : Prop := ∃ text rf, o = .response 200 text rf

/-- C6: failure semantics of the generator call: (i) a connection failure is
raised as an Exception whose message contains the backend base URL; (ii) a
non-success status is raised as an Exception whose message carries the
status and the response body; (iii) expiry of the configured timeout escapes
as the ReadTimeout exception, a type distinct from the Exception of (i) and
(ii); (iv) the single request is issued with timeout = 60 seconds; (v) no
failure is retried — any non-200 outcome of the one call yields an error. -/
theorem generate_failure_semantics (llm : OllamaLLM) (prompt : String)
    (temperature : ℚ) (max_tokens : Nat) :
    (∀ http : OllamaRequest → HTTPOutcome,
      http (llm.request prompt temperature max_tokens) = .connectionError →
      ∃ a b, llm.generate http prompt temperature max_tokens =
        .error (.exception (a ++ llm.base_url ++ b))) ∧
    (∀ (http : OllamaRequest → HTTPOutcome) (status : Nat) (text rf : String),
      http (llm.request prompt temperature max_tokens) = .response status text rf →
      status ≠ 200 →
      ∃ a, llm.generate http prompt temperature max_tokens =
        .error (.exception (a ++ toString status ++ " - " ++ text))) ∧
    (∀ http : OllamaRequest → HTTPOutcome,
      http (llm.request prompt temperature max_tokens) = .timedOut →
      llm.generate http prompt temperature max_tokens = .error .readTimeout) ∧
    (∀ msg, PyError.readTimeout ≠ PyError.exception msg) ∧
    (llm.request prompt temperature max_tokens).timeout = 60 ∧
    (∀ http : OllamaRequest → HTTPOutcome,
      ¬ isSuccess (http (llm.request prompt temperature max_tokens)) →
      ∃ err, llm.generate http prompt temperature max_tokens = .error err) := by
  refine ⟨?_, ?_, ?_, fun msg h => by injection h, rfl, ?_⟩
  · intro http h
    unfold OllamaLLM.generate
    rw [h]
    exact ⟨"Cannot connect to Ollama at ",
      ". Make sure Ollama is running locally.", rfl⟩
  · intro http status text rf h hs
    refine ⟨"Ollama error: ", ?_⟩
    unfold OllamaLLM.generate
    rw [h]
    dsimp only
    rw [if_pos hs]
  · intro http h
    unfold OllamaLLM.generate
    rw [h]
  · intro http hns
    cases ho : http (llm.request prompt temperature max_tokens) with
    | connectionError =>
      refine ⟨.exception ("Cannot connect to Ollama at " ++ llm.base_url ++
        ". Make sure Ollama is running locally."), ?_⟩
      unfold OllamaLLM.generate
      rw [ho]
    | timedOut =>
      refine ⟨.readTimeout, ?_⟩
      unfold OllamaLLM.generate
      rw [ho]
    | response st tx rf =>
      have hst : st ≠ 200 := fun he => hns ⟨tx, rf, by rw [ho, he]⟩
      refine ⟨.exception ("Ollama error: " ++ toString st ++ " - " ++ tx), ?_⟩
      unfold OllamaLLM.generate
      rw [ho]
      dsimp only
      rw [if_pos hst]

/-- Witness for C6 at concrete inputs: each failure mode exercised once. -/
theorem generate_failure_semantics_witness :
    (∃ a b, (OllamaLLM.mk "http://localhost:11434" "llama3").generate
        (fun _ => .connectionError) "p" (7/10 : ℚ) 512 =
        .error (.exception (a ++ "http://localhost:11434" ++ b))) ∧
    (∃ a, (OllamaLLM.mk "http://localhost:11434" "llama3").generate
        (fun _ => .response 500 "boom" "") "p" (7/10 : ℚ) 512 =
        .error (.exception (a ++ toString (500 : Nat) ++ " - " ++ "boom"))) ∧
    ((OllamaLLM.mk "http://localhost:11434" "llama3").generate
        (fun _ => .timedOut) "p" (7/10 : ℚ) 512 = .error .readTimeout) ∧
    ((OllamaLLM.mk "http://localhost:11434" "llama3").request
        "p" (7/10 : ℚ) 512).timeout = 60 := by
  have h := generate_failure_semantics
    (OllamaLLM.mk "http://localhost:11434" "llama3") "p" (7/10 : ℚ) 512
  exact ⟨h.1 _ rfl, h.2.1 _ 500 "boom" "" rfl (by decide),
    h.2.2.1 _ rfl, h.2.2.2.2.1⟩

end Backend
